import Mathlib

/-!
Verification of the Gutenberg corpus downloader
(`src/ingestion/gutenberg_downloader.py`).

The module is embedded shallowly: the static catalog and the prefix
classifier become Lean constants and a pure function; `download_book`
becomes a function over an explicit network oracle (attempt number to
response) and an explicit filesystem cell (the size of the destination
file, `none` when absent), returning its result together with the final
file state and a trace of the network attempts it made;
`download_curated_corpus` maps the selected catalog entries through it.
-/

/-- What one `urllib.request.urlopen` call can observe in `download_book`:
a fully read body of a given byte length, an `urllib.error.HTTPError`
carrying a status code, or a network-layer error
(`urllib.error.URLError` / `TimeoutError`). -/
inductive NetResp where
  | ok (size : Nat)
  | httpError (code : Nat)
  | netError
deriving DecidableEq

/-- Classification of one executed attempt of the retry loop in
`download_book`, as recorded in the attempt trace. -/
inductive AttemptKind where
  | success (size : Nat)
  | undersized (size : Nat)
  | notFound
  | httpOther (code : Nat)
  | netFail
deriving DecidableEq

/-- One executed network attempt: what happened, and the backoff wait
(`time.sleep(wait)`) executed at the end of that loop iteration, if any. -/
structure AttemptRec where
  kind : AttemptKind
  sleptAfter : Option Nat
deriving DecidableEq

/-- Observable outcome of one `download_book` call: the returned value
(`str | None`, the saved file path on success), the destination file's
final state (its size, `none` when the file does not exist), and the
trace of network attempts actually performed. -/
structure DownloadResult where
  result : Option String
  fs : Option Nat
  trace : List AttemptRec
deriving DecidableEq

/-- `CURATED_BOOKS`: the static catalog, in declaration order
(Python dicts preserve insertion order, and `list(CURATED_BOOKS.items())`
is taken in that order). -/
def CURATED_BOOKS : List (String × Nat) :=
  [("hugo_miserables_t1", 17489),
   ("hugo_miserables_t2", 17493),
   ("hugo_notre_dame", 2610),
   ("flaubert_bovary", 14155),
   ("flaubert_education", 14156),
   ("stendhal_rouge_noir", 798),
   ("zola_germinal", 5711),
   ("zola_assommoir", 8600),
   ("zola_nana", 5765),
   ("zola_bete_humaine", 14553),
   ("balzac_pere_goriot", 5090),
   ("balzac_illusions", 13159),
   ("dumas_monte_cristo_t1", 17989),
   ("dumas_monte_cristo_t2", 17990),
   ("dumas_trois_mousquetaires", 13951),
   ("maupassant_bel_ami", 3790),
   ("maupassant_contes", 3090),
   ("proust_swann", 7178),
   ("voltaire_candide", 4650),
   ("leroux_fantome_opera", 175),
   ("leroux_chambre_jaune", 13071),
   ("leroux_parfum_dame", 13072),
   ("leblanc_arsene_lupin", 6133),
   ("leblanc_aiguille", 12389),
   ("leblanc_813", 28371),
   ("verne_20000_lieues", 5097),
   ("verne_tour_monde", 800),
   ("verne_voyage_centre", 4791),
   ("verne_ile_mysterieuse", 9080),
   ("verne_5_semaines", 4548),
   ("verne_terre_lune", 799),
   ("maupassant_horla", 14063)]

/-- `GENRES`: the static prefix-to-genre table, in declaration order. -/
def GENRES : List (String × String) :=
  [("hugo", "litterature_generale"),
   ("flaubert", "litterature_generale"),
   ("stendhal", "litterature_generale"),
   ("zola", "litterature_generale"),
   ("balzac", "litterature_generale"),
   ("dumas", "litterature_generale"),
   ("maupassant_bel", "litterature_generale"),
   ("maupassant_contes", "litterature_generale"),
   ("proust", "litterature_generale"),
   ("voltaire", "litterature_generale"),
   ("leroux", "thriller_policier"),
   ("leblanc", "thriller_policier"),
   ("verne", "fantasy_sf"),
   ("maupassant_horla", "fantasy_sf")]

/-- `book_key.startswith(p)`, expressed on the underlying character
lists so that it evaluates inside the kernel. -/
def strStartsWith (s p : String) : Bool :=
  p.data.isPrefixOf s.data

/-- `get_genre(book_key)`: first prefix of `GENRES` that `book_key` starts
with wins; falls back to the general-literature genre. -/
def get_genre (book_key : String) : String :=
  match GENRES.find? (fun g => strStartsWith book_key g.1) with
  | some g => g.2
  | none => "litterature_generale"

/-- The deterministic destination path `output_dir / f"pg{book_id}.txt"`. -/
def book_path (output_dir : String) (book_id : Nat) : String :=
  output_dir ++ "/pg" ++ toString book_id ++ ".txt"

/-- The `for attempt in range(1, retries + 1)` loop of `download_book`.
`fuel` is the number of remaining iterations (initially `retries`, so the
loop body runs for `attempt = 1, ..., retries`); `attempt` is the 1-based
attempt counter. An undersized body hits `continue`, which skips the
backoff sleep at the bottom of the loop body; HTTP 404 returns `None`
immediately; any other `HTTPError` and any `URLError`/`TimeoutError`
fall through to the sleep, executed only when `attempt < retries`. -/
def downloadLoop (path : String) (net : Nat → NetResp) (fs : Option Nat)
    (retries : Nat) : Nat → Nat → DownloadResult
  | _, 0 => ⟨none, fs, []⟩
  | attempt, fuel + 1 =>
    match net attempt with
    | NetResp.ok size =>
      if size < 500 then
        let r := downloadLoop path net fs retries (attempt + 1) fuel
        ⟨r.result, r.fs, ⟨AttemptKind.undersized size, none⟩ :: r.trace⟩
      else
        ⟨some path, some size, [⟨AttemptKind.success size, none⟩]⟩
    | NetResp.httpError code =>
      if code = 404 then
        ⟨none, fs, [⟨AttemptKind.notFound, none⟩]⟩
      else
        let slept := if attempt < retries then some (attempt * 2) else none
        let r := downloadLoop path net fs retries (attempt + 1) fuel
        ⟨r.result, r.fs, ⟨AttemptKind.httpOther code, slept⟩ :: r.trace⟩
    | NetResp.netError =>
      let slept := if attempt < retries then some (attempt * 2) else none
      let r := downloadLoop path net fs retries (attempt + 1) fuel
      ⟨r.result, r.fs, ⟨AttemptKind.netFail, slept⟩ :: r.trace⟩

/-- `download_book(book_id, output_dir, retries)`: skip-and-return the
existing path when the destination file exists with size strictly above
1000 bytes; otherwise run the retry loop. -/
def download_book (book_id : Nat) (output_dir : String) (retries : Nat)
    (net : Nat → NetResp) (fs : Option Nat) : DownloadResult :=
  let output_path := book_path output_dir book_id
  match fs with
  | some sz =>
    if sz > 1000 then ⟨some output_path, fs, []⟩
    else downloadLoop output_path net fs retries 1 retries
  | none => downloadLoop output_path net fs retries 1 retries

/-- `BookMetadata`: the per-item outcome record. -/
structure BookMetadata where
  book_id : Nat
  key : String
  genre : String
  file_path : String
  file_size : Nat
  download_success : Bool
  error : Option String
deriving DecidableEq

/-- Construction of the `BookMetadata` record in `download_curated_corpus`
from one `download_book` result: `file_path` is the returned path or the
empty string; `file_size` is the stat of the returned path (0 on failure);
`download_success` is whether a path was returned; `error` is `None` on
success and the string recorded on failure. -/
def mkBookMetadata (key : String) (book_id : Nat) (d : DownloadResult) :
    BookMetadata :=
  { book_id := book_id
    key := key
    genre := get_genre key
    file_path := d.result.getD ""
    file_size := match d.result with
      | some _ => d.fs.getD 0
      | none => 0
    download_success := d.result.isSome
    error := match d.result with
      | some _ => none
      | none => some "Download failed" }

/-- The selection logic of `download_curated_corpus`: filter by genre when
`genres` is truthy (non-`None` and non-empty), then truncate to
`max_books` when truthy (non-`None` and non-zero). -/
def selectBooks (genres : Option (List String)) (max_books : Option Nat) :
    List (String × Nat) :=
  let books := CURATED_BOOKS
  let books := match genres with
    | some gs => if gs.isEmpty then books
        else books.filter (fun kb => gs.contains (get_genre kb.1))
    | none => books
  match max_books with
  | some n => if n = 0 then books else books.take n
  | none => books

/-- `download_curated_corpus(output_dir, max_books, genres, delay)`: one
`BookMetadata` per selected entry, in selection order. The inter-item
courtesy delay only sleeps and does not affect the outcome list, so it is
not a parameter here; each book's fetch is driven by its own network
oracle `net book_id` and its own destination-file state `fs book_id`,
with the Python default of 3 retries. -/
def download_curated_corpus (output_dir : String) (max_books : Option Nat)
    (genres : Option (List String)) (net : Nat → Nat → NetResp)
    (fs : Nat → Option Nat) : List BookMetadata :=
  (selectBooks genres max_books).map
    (fun kb => mkBookMetadata kb.1 kb.2
      (download_book kb.2 output_dir 3 (net kb.2) (fs kb.2)))

/-- `success = sum(1 for r in results if r.download_success)`. -/
def successCount (results : List BookMetadata) : Nat :=
  results.countP (fun r => r.download_success)

/-- `total_size = sum(r.file_size for r in results)`. -/
def totalSize (results : List BookMetadata) : Nat :=
  (results.map (fun r => r.file_size)).sum

/-- The number of network calls (`urlopen` invocations) a `download_book`
call performed: every attempt-trace record is exactly one such call. -/
def attemptsMade (d : DownloadResult) : Nat :=
  d.trace.length

/-- Seconds slept between attempt `k - 1` and attempt `k` (1-based
attempt numbers); 0 when no sleep separates them (or `k` is the first
attempt). -/
def waitBefore (t : List AttemptRec) (k : Nat) : Nat :=
  if k ≤ 1 then 0
  else match t.get? (k - 2) with
    | some r => r.sleptAfter.getD 0
    | none => 0

/-- Transient failure kinds as the spec enumerates them: undersized body,
timeout, connection failure, generic HTTP error. -/
def isTransientKind : AttemptKind → Bool
  | AttemptKind.undersized _ => true
  | AttemptKind.httpOther _ => true
  | AttemptKind.netFail => true
  | _ => false

/-- Network-layer transient failure kinds (non-404 HTTP error,
`URLError`/`TimeoutError`) — the ones whose loop iteration reaches the
backoff sleep. -/
def isNetLayerKind : AttemptKind → Bool
  | AttemptKind.httpOther _ => true
  | AttemptKind.netFail => true
  | _ => false

/-- A network response that is a successfully read but undersized body. -/
def isUndersized : NetResp → Bool
  | NetResp.ok size => size < 500
  | _ => false

example : get_genre "maupassant_horla" = "fantasy_sf" := by decide
example : get_genre "maupassant_bel_ami" = "litterature_generale" := by decide
example : get_genre "unknown_key" = "litterature_generale" := by decide

example :
    (download_book 200 "data/raw" 3 (fun _ => NetResp.ok 50) none).trace.length = 3 := by
  decide

example :
    (download_book 404 "data/raw" 3 (fun _ => NetResp.httpError 404) none).trace.length = 1 := by
  decide

example :
    (download_book 7 "data/raw" 3 (fun _ => NetResp.netError) none).trace =
      [⟨AttemptKind.netFail, some 2⟩, ⟨AttemptKind.netFail, some 4⟩,
       ⟨AttemptKind.netFail, none⟩] := by
  decide

example :
    (download_book 7 "d" 3 (fun _ => NetResp.ok 1500) none).result = some "d/pg7.txt" := by
  decide

example : (selectBooks (some ["fantasy_sf"]) (some 2)).map Prod.fst =
    ["verne_20000_lieues", "verne_tour_monde"] := by decide

/-- Summing `f` over a list equals summing it over the sublist kept by a
filter, when `f` vanishes on every dropped element. -/
theorem sum_map_filter_of_zero {α : Type} (p : α → Bool) (f : α → Nat) :
    ∀ l : List α, (∀ a ∈ l, p a = false → f a = 0) →
      (l.map f).sum = ((l.filter p).map f).sum := by
  intro l
  induction l with
  | nil => intro _; rfl
  | cons x xs ih =>
    intro h
    have hxs : ∀ a ∈ xs, p a = false → f a = 0 :=
      fun a ha => h a (List.mem_cons_of_mem _ ha)
    by_cases hp : p x = true
    · simp [List.filter_cons, hp, ih hxs]
    · have hx0 : f x = 0 := h x (List.mem_cons_self _ _) (by simpa using hp)
      simp [List.filter_cons, hp, hx0, ih hxs]

/-- In any produced outcome list, a failed item's `file_size` is 0
(`file_size` is computed from `file_path`, which is absent on failure). -/
theorem run_failed_size_zero (output_dir : String) (max_books : Option Nat)
    (genres : Option (List String)) (net : Nat → Nat → NetResp)
    (fs : Nat → Option Nat) :
    ∀ r ∈ download_curated_corpus output_dir max_books genres net fs,
      r.download_success = false → r.file_size = 0 := by
  intro r hr
  rw [download_curated_corpus] at hr
  rcases List.mem_map.1 hr with ⟨kb, _, rfl⟩
  cases h : (download_book kb.2 output_dir 3 (net kb.2) (fs kb.2)).result <;>
    simp [mkBookMetadata, h]

/-- `download_book` either takes the skip path (a cached file strictly
above the 1000-byte threshold) or runs the retry loop from attempt 1 with
`retries` iterations of fuel. -/
theorem download_book_cases (book_id retries : Nat) (output_dir : String)
    (net : Nat → NetResp) (fs : Option Nat) :
    (∃ sz, fs = some sz ∧ 1000 < sz ∧
      download_book book_id output_dir retries net fs =
        ⟨some (book_path output_dir book_id), fs, []⟩) ∨
    download_book book_id output_dir retries net fs =
      downloadLoop (book_path output_dir book_id) net fs retries 1 retries := by
  cases fs with
  | none => right; rfl
  | some sz =>
    by_cases h1000 : sz > 1000
    · left; exact ⟨sz, rfl, h1000, by simp [download_book, h1000]⟩
    · right; simp [download_book, h1000]

/-- The retry loop performs at most `fuel` network attempts. -/
theorem downloadLoop_trace_length_le (path : String) (net : Nat → NetResp)
    (fs : Option Nat) (retries : Nat) :
    ∀ fuel attempt,
      (downloadLoop path net fs retries attempt fuel).trace.length ≤ fuel := by
  intro fuel
  induction fuel with
  | zero => intro attempt; simp [downloadLoop]
  | succ n ih =>
    intro attempt
    cases h : net attempt with
    | ok size =>
      by_cases hs : size < 500
      · have := ih (attempt + 1)
        simp only [downloadLoop, h, hs, if_true, List.length_cons]
        omega
      · simp [downloadLoop, h, hs]
    | httpError code =>
      by_cases hc : code = 404
      · simp [downloadLoop, h, hc]
      · have := ih (attempt + 1)
        simp only [downloadLoop, h, hc, if_false, List.length_cons]
        omega
    | netError =>
      have := ih (attempt + 1)
      simp only [downloadLoop, h, List.length_cons]
      omega

/-- Any recorded backoff wait is bounded by twice the (1-based) number of
the attempt it followed: record `i` of a loop started at `attempt`
belongs to attempt `attempt + i`. -/
theorem downloadLoop_sleptAfter_le (path : String) (net : Nat → NetResp)
    (fs : Option Nat) (retries : Nat) :
    ∀ fuel attempt i r,
      (downloadLoop path net fs retries attempt fuel).trace.get? i = some r →
      r.sleptAfter.getD 0 ≤ (attempt + i) * 2 := by
  intro fuel
  induction fuel with
  | zero => intro attempt i r h; simp [downloadLoop] at h
  | succ n ih =>
    intro attempt i r h
    cases hn : net attempt with
    | ok size =>
      by_cases hs : size < 500
      · simp only [downloadLoop, hn, hs, if_true] at h
        cases i with
        | zero =>
          simp only [List.get?_cons_zero, Option.some.injEq] at h
          subst h; simp
        | succ i =>
          simp only [List.get?_cons_succ] at h
          have := ih (attempt + 1) i r h
          omega
      · simp only [downloadLoop, hn, hs, if_false] at h
        cases i with
        | zero =>
          simp only [List.get?_cons_zero, Option.some.injEq] at h
          subst h; simp
        | succ i => simp at h
    | httpError code =>
      by_cases hc : code = 404
      · simp only [downloadLoop, hn, hc, if_true] at h
        cases i with
        | zero =>
          simp only [List.get?_cons_zero, Option.some.injEq] at h
          subst h; simp
        | succ i => simp at h
      · simp only [downloadLoop, hn, hc, if_false] at h
        cases i with
        | zero =>
          simp only [List.get?_cons_zero, Option.some.injEq] at h
          subst h
          by_cases ha : attempt < retries <;> simp [ha]
        | succ i =>
          simp only [List.get?_cons_succ] at h
          have := ih (attempt + 1) i r h
          omega
    | netError =>
      simp only [downloadLoop, hn] at h
      cases i with
      | zero =>
        simp only [List.get?_cons_zero, Option.some.injEq] at h
        subst h
        by_cases ha : attempt < retries <;> simp [ha]
      | succ i =>
        simp only [List.get?_cons_succ] at h
        have := ih (attempt + 1) i r h
        omega

/-- A network-layer transient attempt (non-404 HTTP error or network
error) sleeps exactly `attemptNumber * 2` seconds when attempts remain,
and nothing on the final attempt. -/
theorem downloadLoop_netlayer_slept (path : String) (net : Nat → NetResp)
    (fs : Option Nat) (retries : Nat) :
    ∀ fuel attempt i r,
      (downloadLoop path net fs retries attempt fuel).trace.get? i = some r →
      isNetLayerKind r.kind = true →
      r.sleptAfter =
        if attempt + i < retries then some ((attempt + i) * 2) else none := by
  intro fuel
  induction fuel with
  | zero => intro attempt i r h _; simp [downloadLoop] at h
  | succ n ih =>
    intro attempt i r h hk
    cases hn : net attempt with
    | ok size =>
      by_cases hs : size < 500
      · simp only [downloadLoop, hn, hs, if_true] at h
        cases i with
        | zero =>
          simp only [List.get?_cons_zero, Option.some.injEq] at h
          subst h; simp [isNetLayerKind] at hk
        | succ i =>
          simp only [List.get?_cons_succ] at h
          have := ih (attempt + 1) i r h hk
          have he : attempt + 1 + i = attempt + (i + 1) := by omega
          rw [he] at this
          exact this
      · simp only [downloadLoop, hn, hs, if_false] at h
        cases i with
        | zero =>
          simp only [List.get?_cons_zero, Option.some.injEq] at h
          subst h; simp [isNetLayerKind] at hk
        | succ i => simp at h
    | httpError code =>
      by_cases hc : code = 404
      · simp only [downloadLoop, hn, hc, if_true] at h
        cases i with
        | zero =>
          simp only [List.get?_cons_zero, Option.some.injEq] at h
          subst h; simp [isNetLayerKind] at hk
        | succ i => simp at h
      · simp only [downloadLoop, hn, hc, if_false] at h
        cases i with
        | zero =>
          simp only [List.get?_cons_zero, Option.some.injEq] at h
          subst h; simp
        | succ i =>
          simp only [List.get?_cons_succ] at h
          have := ih (attempt + 1) i r h hk
          have he : attempt + 1 + i = attempt + (i + 1) := by omega
          rw [he] at this
          exact this
    | netError =>
      simp only [downloadLoop, hn] at h
      cases i with
      | zero =>
        simp only [List.get?_cons_zero, Option.some.injEq] at h
        subst h; simp
      | succ i =>
        simp only [List.get?_cons_succ] at h
        have := ih (attempt + 1) i r h hk
        have he : attempt + 1 + i = attempt + (i + 1) := by omega
        rw [he] at this
        exact this

/-- The retry loop either fails leaving the destination file untouched, or
succeeds, returning the path after writing the full validated body (at
least 500 bytes). -/
theorem downloadLoop_write (path : String) (net : Nat → NetResp)
    (fs : Option Nat) (retries : Nat) :
    ∀ fuel attempt,
      ((downloadLoop path net fs retries attempt fuel).result = none ∧
        (downloadLoop path net fs retries attempt fuel).fs = fs) ∨
      (∃ sz, 500 ≤ sz ∧
        (downloadLoop path net fs retries attempt fuel).result = some path ∧
        (downloadLoop path net fs retries attempt fuel).fs = some sz) := by
  intro fuel
  induction fuel with
  | zero => intro attempt; left; simp [downloadLoop]
  | succ n ih =>
    intro attempt
    cases hn : net attempt with
    | ok size =>
      by_cases hs : size < 500
      · rcases ih (attempt + 1) with h | ⟨sz, h1, h2, h3⟩
        · left; simp [downloadLoop, hn, hs, h.1, h.2]
        · right
          exact ⟨sz, h1, by simp [downloadLoop, hn, hs, h2],
            by simp [downloadLoop, hn, hs, h3]⟩
      · right
        exact ⟨size, by omega, by simp [downloadLoop, hn, hs],
          by simp [downloadLoop, hn, hs]⟩
    | httpError code =>
      by_cases hc : code = 404
      · left; simp [downloadLoop, hn, hc]
      · rcases ih (attempt + 1) with h | ⟨sz, h1, h2, h3⟩
        · left; simp [downloadLoop, hn, hc, h.1, h.2]
        · right
          exact ⟨sz, h1, by simp [downloadLoop, hn, hc, h2],
            by simp [downloadLoop, hn, hc, h3]⟩
    | netError =>
      rcases ih (attempt + 1) with h | ⟨sz, h1, h2, h3⟩
      · left; simp [downloadLoop, hn, h.1, h.2]
      · right
        exact ⟨sz, h1, by simp [downloadLoop, hn, h2],
          by simp [downloadLoop, hn, h3]⟩

/-- With every response an undersized body, the loop runs all its
iterations, writes nothing, and returns `None`. -/
theorem downloadLoop_undersized (path : String) (net : Nat → NetResp)
    (fs : Option Nat) (retries : Nat)
    (hnet : ∀ k, isUndersized (net k) = true) :
    ∀ fuel attempt,
      (downloadLoop path net fs retries attempt fuel).result = none ∧
      (downloadLoop path net fs retries attempt fuel).fs = fs ∧
      (downloadLoop path net fs retries attempt fuel).trace.length = fuel := by
  intro fuel
  induction fuel with
  | zero => intro attempt; simp [downloadLoop]
  | succ n ih =>
    intro attempt
    have h := hnet attempt
    cases hn : net attempt with
    | ok size =>
      rw [hn] at h
      have hs : size < 500 := by simpa [isUndersized] using h
      have hr := ih (attempt + 1)
      simp [downloadLoop, hn, hs, hr.1, hr.2.1, hr.2.2]
    | httpError code => rw [hn] at h; simp [isUndersized] at h
    | netError => rw [hn] at h; simp [isUndersized] at h

/-- Claim C2: every run produces exactly one `BookMetadata` per selected
catalog entry, in selection order, with matching `key` and `book_id`, and
the outcome list's length equals the number of selected items regardless
of individual fetch failures (the network oracle and file states are
universally quantified). -/
theorem outcome_cardinality (output_dir : String) (max_books : Option Nat)
    (genres : Option (List String)) (net : Nat → Nat → NetResp)
    (fs : Nat → Option Nat) :
    (download_curated_corpus output_dir max_books genres net fs).map
        (fun r => r.key) =
      (selectBooks genres max_books).map (fun kb => kb.1) ∧
    (download_curated_corpus output_dir max_books genres net fs).map
        (fun r => r.book_id) =
      (selectBooks genres max_books).map (fun kb => kb.2) ∧
    (download_curated_corpus output_dir max_books genres net fs).length =
      (selectBooks genres max_books).length := by
  refine ⟨?_, ?_, ?_⟩ <;>
    simp [download_curated_corpus, List.map_map, Function.comp, mkBookMetadata]

/-- Claim C9: the summary counts successes exactly, and the total byte
count — computed by the code over all outcomes — coincides with the sum
of `file_size` over the succeeded outcomes, because failed outcomes
contribute 0 bytes. -/
theorem summary_consistency (output_dir : String) (max_books : Option Nat)
    (genres : Option (List String)) (net : Nat → Nat → NetResp)
    (fs : Nat → Option Nat) :
    successCount (download_curated_corpus output_dir max_books genres net fs) =
      ((download_curated_corpus output_dir max_books genres net fs).filter
        (fun r => r.download_success)).length ∧
    totalSize (download_curated_corpus output_dir max_books genres net fs) =
      (((download_curated_corpus output_dir max_books genres net fs).filter
        (fun r => r.download_success)).map (fun r => r.file_size)).sum := by
  constructor
  · simp [successCount, List.countP_eq_length_filter]
  · exact sum_map_filter_of_zero _ _ _
      (run_failed_size_zero output_dir max_books genres net fs)

/-- Claim C10: `max_books = 0` and `genres = []` are falsy in Python, so
the code treats them exactly like `None`: zero applies no truncation and
the empty genre list applies no filtering. -/
theorem falsy_filters_disabled (output_dir : String) (net : Nat → Nat → NetResp)
    (fs : Nat → Option Nat) (genres : Option (List String))
    (max_books : Option Nat) :
    download_curated_corpus output_dir (some 0) genres net fs =
      download_curated_corpus output_dir none genres net fs ∧
    download_curated_corpus output_dir max_books (some []) net fs =
      download_curated_corpus output_dir max_books none net fs := by
  constructor <;> rfl

/-- Claim C1: with a provided genre filter `G` and maximum count `N`, the
outcome list corresponds exactly (projected to key and id) to the first
`N` elements, in catalog order, of the catalog filtered by
`get_genre key ∈ G`; when `N` is at least the filtered count the whole
filtered selection is produced. -/
theorem run_filter_take (output_dir : String) (net : Nat → Nat → NetResp)
    (fs : Nat → Option Nat) (G : List String) (N : Nat)
    (hG : G ≠ []) (hN : 0 < N) :
    (download_curated_corpus output_dir (some N) (some G) net fs).map
        (fun r => (r.key, r.book_id)) =
      (CURATED_BOOKS.filter (fun kb => G.contains (get_genre kb.1))).take N ∧
    ((CURATED_BOOKS.filter (fun kb => G.contains (get_genre kb.1))).length ≤ N →
      (download_curated_corpus output_dir (some N) (some G) net fs).map
          (fun r => (r.key, r.book_id)) =
        CURATED_BOOKS.filter (fun kb => G.contains (get_genre kb.1))) := by
  have hsel : selectBooks (some G) (some N) =
      (CURATED_BOOKS.filter (fun kb => G.contains (get_genre kb.1))).take N := by
    cases G with
    | nil => exact absurd rfl hG
    | cons g gs =>
      have hN' : ¬ (N = 0) := by omega
      simp [selectBooks, hN']
  have hmain : (download_curated_corpus output_dir (some N) (some G) net fs).map
      (fun r => (r.key, r.book_id)) =
      (CURATED_BOOKS.filter (fun kb => G.contains (get_genre kb.1))).take N := by
    rw [download_curated_corpus, hsel, List.map_map]
    have hcomp : ((fun r => (r.key, r.book_id)) ∘ fun kb : String × Nat =>
        mkBookMetadata kb.1 kb.2
          (download_book kb.2 output_dir 3 (net kb.2) (fs kb.2))) =
        fun kb : String × Nat => (kb.1, kb.2) := rfl
    rw [hcomp]
    simp
  refine ⟨hmain, fun hlen => ?_⟩
  rw [hmain, List.take_of_length_le hlen]

/-- Claim C8: `download_book` touches the filesystem only on a successful
attempt — a failed call leaves the destination file exactly as before
(never created, truncated, or overwritten) — and any write stores the
full in-memory-validated body of at least 500 bytes together with a
returned success path. -/
theorem write_on_success_only (book_id retries : Nat) (output_dir : String)
    (net : Nat → NetResp) (fs : Option Nat) :
    ((download_book book_id output_dir retries net fs).result = none →
      (download_book book_id output_dir retries net fs).fs = fs) ∧
    ((download_book book_id output_dir retries net fs).fs ≠ fs →
      ∃ sz, 500 ≤ sz ∧
        (download_book book_id output_dir retries net fs).fs = some sz ∧
        (download_book book_id output_dir retries net fs).result =
          some (book_path output_dir book_id)) := by
  rcases download_book_cases book_id retries output_dir net fs with
    ⟨sz, _, _, heq⟩ | heq
  · rw [heq]
    constructor
    · intro h; simp at h
    · intro h; simp at h
  · rw [heq]
    rcases downloadLoop_write (book_path output_dir book_id) net fs retries retries 1
      with ⟨h1, h2⟩ | ⟨sz, h1, h2, h3⟩
    · exact ⟨fun _ => h2, fun hne => absurd h2 hne⟩
    · constructor
      · intro h0; rw [h2] at h0; simp at h0
      · intro _; exact ⟨sz, h1, h3, h2⟩

/-- Witness for C8: a deterministic-404 fetch fails and the missing
destination file stays missing. -/
theorem write_on_success_only_witness :
    (download_book 404 "data/raw" 3 (fun _ => NetResp.httpError 404) none).fs = none :=
  (write_on_success_only 404 3 "data/raw" (fun _ => NetResp.httpError 404) none).1
    (by decide)

/-- Claim C4 (amended): with the remote deterministically answering HTTP
404, no skippable cached file, and at least one configured attempt,
`download_book` performs exactly one network attempt, aborts the
remaining retries, returns the bare failure `None`, and leaves the file
untouched. -/
theorem notfound_single_attempt (book_id retries : Nat) (output_dir : String)
    (net : Nat → NetResp) (fs : Option Nat)
    (hnet : ∀ k, net k = NetResp.httpError 404) (hr : 1 ≤ retries)
    (hfs : ∀ sz, fs = some sz → sz ≤ 1000) :
    attemptsMade (download_book book_id output_dir retries net fs) = 1 ∧
    (download_book book_id output_dir retries net fs).result = none ∧
    (download_book book_id output_dir retries net fs).fs = fs := by
  rcases download_book_cases book_id retries output_dir net fs with
    ⟨sz, hsz, hgt, _⟩ | heq
  · exact absurd (hfs sz hsz) (by omega)
  · obtain ⟨f, rfl⟩ : ∃ f, retries = f + 1 := ⟨retries - 1, by omega⟩
    rw [heq]
    have hloop : downloadLoop (book_path output_dir book_id) net fs (f + 1) 1 (f + 1) =
        ⟨none, fs, [⟨AttemptKind.notFound, none⟩]⟩ := by
      simp [downloadLoop, hnet 1]
    rw [hloop]
    exact ⟨rfl, rfl, rfl⟩

/-- Witness for C4's amended theorem at a concrete input. -/
theorem notfound_single_attempt_witness :
    attemptsMade (download_book 404 "data/raw" 3
      (fun _ => NetResp.httpError 404) none) = 1 ∧
    (download_book 404 "data/raw" 3 (fun _ => NetResp.httpError 404) none).result =
      none ∧
    (download_book 404 "data/raw" 3 (fun _ => NetResp.httpError 404) none).fs =
      none :=
  notfound_single_attempt 404 3 "data/raw" (fun _ => NetResp.httpError 404) none
    (fun _ => rfl) (by omega) (fun _ h => nomatch h)

/-- Counterexample to C4 as stated: the code's return value on a
deterministic 404 is the bare `None` — the very value returned when
undersized retries are exhausted — so it carries no reason
distinguishing the two, and the recorded outcome error is the generic
string, not the claimed reason; moreover with a valid cached file a
deterministic-404 identifier triggers zero network attempts, not one. -/
theorem notfound_counterexample :
    (download_book 404 "data/raw" 3 (fun _ => NetResp.httpError 404) none).result =
      (download_book 200 "data/raw" 3 (fun _ => NetResp.ok 50) none).result ∧
    (download_curated_corpus "data/raw" (some 1) none
        (fun _ _ => NetResp.httpError 404) (fun _ => none)).map (fun r => r.error) =
      [some "Download failed"] ∧
    some "Download failed" ≠ some "not found" ∧
    attemptsMade (download_book 404 "data/raw" 3 (fun _ => NetResp.httpError 404)
      (some 5000)) = 0 :=
  ⟨by decide, by decide, by decide, by decide⟩

/-- Claim C6 (amended): with every network attempt answering an
undersized body (below 500 bytes) and no skippable cached file,
`download_book` makes exactly `retries` attempts, never writes the
destination file, and returns the bare failure `None`. -/
theorem undersized_exhausts_retries (book_id retries : Nat) (output_dir : String)
    (net : Nat → NetResp) (fs : Option Nat)
    (hnet : ∀ k, isUndersized (net k) = true)
    (hfs : ∀ sz, fs = some sz → sz ≤ 1000) :
    attemptsMade (download_book book_id output_dir retries net fs) = retries ∧
    (download_book book_id output_dir retries net fs).result = none ∧
    (download_book book_id output_dir retries net fs).fs = fs := by
  rcases download_book_cases book_id retries output_dir net fs with
    ⟨sz, hsz, hgt, _⟩ | heq
  · exact absurd (hfs sz hsz) (by omega)
  · rw [heq]
    have h := downloadLoop_undersized (book_path output_dir book_id) net fs retries
      hnet retries 1
    exact ⟨h.2.2, h.1, h.2.1⟩

/-- Witness for C6's amended theorem at a concrete input. -/
theorem undersized_exhausts_retries_witness :
    attemptsMade (download_book 200 "data/raw" 3 (fun _ => NetResp.ok 50) none) = 3 ∧
    (download_book 200 "data/raw" 3 (fun _ => NetResp.ok 50) none).result = none ∧
    (download_book 200 "data/raw" 3 (fun _ => NetResp.ok 50) none).fs = none :=
  undersized_exhausts_retries 200 3 "data/raw" (fun _ => NetResp.ok 50) none
    (fun _ => rfl) (fun _ h => nomatch h)

/-- Counterexample to C6 as stated: on exhausted undersized retries the
return value is the same bare `None` a deterministic 404 produces, the
recorded outcome error is the generic string rather than
`"exhausted retries"`, and with a valid cached file the identifier is
skipped after zero attempts rather than `retries`. -/
theorem exhausted_counterexample :
    (download_book 200 "data/raw" 3 (fun _ => NetResp.ok 50) none).result =
      (download_book 200 "data/raw" 3 (fun _ => NetResp.httpError 404) none).result ∧
    (download_curated_corpus "data/raw" (some 1) none (fun _ _ => NetResp.ok 50)
        (fun _ => none)).map (fun r => r.error) = [some "Download failed"] ∧
    some "Download failed" ≠ some "exhausted retries" ∧
    attemptsMade (download_book 200 "data/raw" 3 (fun _ => NetResp.ok 50)
      (some 5000)) = 0 :=
  ⟨by decide, by decide, by decide, by decide⟩

/-- Claim C3 (amended): a destination file strictly above 1000 bytes makes
`download_book` return Success with that path immediately, with zero
network attempts; hence a second call after a first call that stored such
a file performs no network calls and returns the equivalent Success. A
first success whose body is between 500 and 1000 bytes is the exception:
its file fails the skip check and is fetched again. -/
theorem fetch_skip_idempotent (book_id retries retries2 sz sz2 : Nat)
    (output_dir : String) (net net2 : Nat → NetResp) (fs : Option Nat)
    (hsz : 1000 < sz) :
    (attemptsMade (download_book book_id output_dir retries net (some sz)) = 0 ∧
      (download_book book_id output_dir retries net (some sz)).result =
        some (book_path output_dir book_id) ∧
      (download_book book_id output_dir retries net (some sz)).fs = some sz) ∧
    ((download_book book_id output_dir retries net fs).fs = some sz2 →
      1000 < sz2 →
      attemptsMade (download_book book_id output_dir retries2 net2
        ((download_book book_id output_dir retries net fs).fs)) = 0 ∧
      (download_book book_id output_dir retries2 net2
        ((download_book book_id output_dir retries net fs).fs)).result =
        some (book_path output_dir book_id)) := by
  constructor
  · refine ⟨?_, ?_, ?_⟩ <;> simp [download_book, hsz, attemptsMade]
  · intro h1 h2
    rw [h1]
    constructor <;> simp [download_book, h2, attemptsMade]

/-- Witness for C3's amended theorem: a first run stores 1500 bytes, so
the second run skips with zero attempts. -/
theorem fetch_skip_idempotent_witness :
    attemptsMade (download_book 5097 "data/raw" 0 (fun _ => NetResp.httpError 500)
      ((download_book 5097 "data/raw" 3 (fun _ => NetResp.ok 1500) none).fs)) = 0 ∧
    (download_book 5097 "data/raw" 0 (fun _ => NetResp.httpError 500)
      ((download_book 5097 "data/raw" 3 (fun _ => NetResp.ok 1500) none).fs)).result =
      some (book_path "data/raw" 5097) :=
  (fetch_skip_idempotent 5097 3 0 2000 1500 "data/raw" (fun _ => NetResp.ok 1500)
    (fun _ => NetResp.httpError 500) none (by omega)).2 (by decide) (by omega)

/-- Counterexample to C3 as stated: a first call succeeding with a
600-byte body returns Success and stores 600 bytes, yet the second call —
with that prior successful result present — performs a network attempt
(600 is not above the 1000-byte skip threshold), not zero. -/
theorem idempotency_counterexample :
    (download_book 100 "data/raw" 3 (fun _ => NetResp.ok 600) none).result =
      some "data/raw/pg100.txt" ∧
    (download_book 100 "data/raw" 3 (fun _ => NetResp.ok 600) none).fs = some 600 ∧
    attemptsMade (download_book 100 "data/raw" 3 (fun _ => NetResp.ok 600)
      ((download_book 100 "data/raw" 3 (fun _ => NetResp.ok 600) none).fs)) = 1 ∧
    attemptsMade (download_book 100 "data/raw" 3 (fun _ => NetResp.ok 600)
      ((download_book 100 "data/raw" 3 (fun _ => NetResp.ok 600) none).fs)) ≠ 0 :=
  ⟨by decide, by decide, by decide, by decide⟩

/-- Claim C5 (amended): within one `download_book` call, across
consecutive network-layer transient-failure attempts (non-404 HTTP
error, `URLError`/timeout), the backoff wait slept before attempt `k + 1`
is strictly greater than the wait slept before attempt `k`.
Undersized-body failures are excluded: their `continue` skips the sleep
entirely (see the counterexample). -/
theorem backoff_monotone (book_id retries k : Nat) (output_dir : String)
    (net : Nat → NetResp) (fs : Option Nat) (rk rk1 : AttemptRec)
    (hk : 1 ≤ k)
    (h1 : (download_book book_id output_dir retries net fs).trace.get? (k - 1) =
      some rk)
    (h2 : (download_book book_id output_dir retries net fs).trace.get? k =
      some rk1)
    (hn1 : isNetLayerKind rk.kind = true)
    (hn2 : isNetLayerKind rk1.kind = true) :
    waitBefore (download_book book_id output_dir retries net fs).trace k <
      waitBefore (download_book book_id output_dir retries net fs).trace (k + 1) := by
  rcases download_book_cases book_id retries output_dir net fs with
    ⟨sz, _, _, heq⟩ | heq
  · rw [heq] at h2; simp at h2
  · rw [heq] at h1 h2 ⊢
    have hlen := downloadLoop_trace_length_le (book_path output_dir book_id) net fs
      retries retries 1
    have hk2 : k <
        (downloadLoop (book_path output_dir book_id) net fs retries 1 retries).trace.length := by
      by_contra hle
      rw [List.get?_eq_none.2 (by omega)] at h2
      exact Option.noConfusion h2
    have hkr : k < retries := by omega
    have hs1 := downloadLoop_netlayer_slept (book_path output_dir book_id) net fs
      retries retries 1 (k - 1) rk h1 hn1
    have he1 : 1 + (k - 1) = k := by omega
    rw [he1] at hs1
    rw [if_pos hkr] at hs1
    have hw1 : waitBefore
        (downloadLoop (book_path output_dir book_id) net fs retries 1 retries).trace
        (k + 1) = k * 2 := by
      have h11 : ¬ (k + 1 ≤ 1) := by omega
      have h12 : k + 1 - 2 = k - 1 := by omega
      rw [waitBefore, if_neg h11, h12, h1]
      show rk.sleptAfter.getD 0 = k * 2
      rw [hs1]
      rfl
    rw [hw1]
    by_cases hk1 : k ≤ 1
    · have : waitBefore
          (downloadLoop (book_path output_dir book_id) net fs retries 1 retries).trace
          k = 0 := by rw [waitBefore, if_pos hk1]
      omega
    · have h12 : 1 + (k - 2) = k - 1 := by omega
      rw [waitBefore, if_neg hk1]
      cases hg : (downloadLoop (book_path output_dir book_id) net fs retries 1
          retries).trace.get? (k - 2) with
      | none =>
        show (0 : Nat) < k * 2
        omega
      | some r =>
        show r.sleptAfter.getD 0 < k * 2
        have hb := downloadLoop_sleptAfter_le (book_path output_dir book_id) net fs
          retries retries 1 (k - 2) r hg
        rw [h12] at hb
        omega

/-- Witness for C5's amended theorem: consecutive connection failures at
attempts 1 and 2 slept 0 then 2 seconds. -/
theorem backoff_monotone_witness :
    (download_book 1 "data/raw" 3 (fun _ => NetResp.netError) none).trace.get? 0 =
      some ⟨AttemptKind.netFail, some 2⟩ ∧
    (download_book 1 "data/raw" 3 (fun _ => NetResp.netError) none).trace.get? 1 =
      some ⟨AttemptKind.netFail, some 4⟩ ∧
    waitBefore (download_book 1 "data/raw" 3
      (fun _ => NetResp.netError) none).trace 1 <
      waitBefore (download_book 1 "data/raw" 3
        (fun _ => NetResp.netError) none).trace 2 :=
  ⟨by decide, by decide,
    backoff_monotone 1 3 1 "data/raw" (fun _ => NetResp.netError) none
      ⟨AttemptKind.netFail, some 2⟩ ⟨AttemptKind.netFail, some 4⟩ (by omega)
      (by decide) (by decide) (by decide) (by decide)⟩

/-- Counterexample to C5 as stated: with every attempt an undersized body
— a transient failure kind the claim covers — three consecutive transient
attempts occur with no sleep at all between them, so the wait before
attempt 2 (0 seconds) is not strictly greater than the wait before
attempt 1 (0 seconds). -/
theorem backoff_counterexample :
    (download_book 200 "data/raw" 3 (fun _ => NetResp.ok 50) none).trace.get? 0 =
      some ⟨AttemptKind.undersized 50, none⟩ ∧
    (download_book 200 "data/raw" 3 (fun _ => NetResp.ok 50) none).trace.get? 1 =
      some ⟨AttemptKind.undersized 50, none⟩ ∧
    isTransientKind (AttemptKind.undersized 50) = true ∧
    ¬ (waitBefore (download_book 200 "data/raw" 3
        (fun _ => NetResp.ok 50) none).trace 1 <
      waitBefore (download_book 200 "data/raw" 3
        (fun _ => NetResp.ok 50) none).trace 2) :=
  ⟨by decide, by decide, by decide, by decide⟩

/-- Claim C7 (amended): per-item failures never raise past the
orchestrator — every outcome of a run has `download_success = false`
exactly when its error field holds the generic string recorded on
failure, and `download_success = true` exactly when the error field is
`None`. -/
theorem failures_become_data (output_dir : String) (max_books : Option Nat)
    (genres : Option (List String)) (net : Nat → Nat → NetResp)
    (fs : Nat → Option Nat) :
    ∀ r ∈ download_curated_corpus output_dir max_books genres net fs,
      (r.download_success = false ↔ r.error = some "Download failed") ∧
      (r.download_success = true ↔ r.error = none) := by
  intro r hr
  rw [download_curated_corpus] at hr
  rcases List.mem_map.1 hr with ⟨kb, _, rfl⟩
  cases h : (download_book kb.2 output_dir 3 (net kb.2) (fs kb.2)).result <;>
    simp [mkBookMetadata, h]

/-- Witness for C7's amended theorem: the failed outcome of a
deterministic-404 run. -/
theorem failures_become_data_witness :
    (⟨17489, "hugo_miserables_t1", "litterature_generale", "", 0, false,
        some "Download failed"⟩ : BookMetadata) ∈
      download_curated_corpus "data/raw" (some 1) none
        (fun _ _ => NetResp.httpError 404) (fun _ => none) ∧
    ((⟨17489, "hugo_miserables_t1", "litterature_generale", "", 0, false,
        some "Download failed"⟩ : BookMetadata).download_success = false ↔
      (⟨17489, "hugo_miserables_t1", "litterature_generale", "", 0, false,
        some "Download failed"⟩ : BookMetadata).error = some "Download failed") ∧
    ((⟨17489, "hugo_miserables_t1", "litterature_generale", "", 0, false,
        some "Download failed"⟩ : BookMetadata).download_success = true ↔
      (⟨17489, "hugo_miserables_t1", "litterature_generale", "", 0, false,
        some "Download failed"⟩ : BookMetadata).error = none) :=
  ⟨by decide,
    failures_become_data "data/raw" (some 1) none
      (fun _ _ => NetResp.httpError 404) (fun _ => none) _ (by decide)⟩

/-- Counterexample to C7 as stated: a not-found failure and an
exhausted-retries failure produce outcomes with the identical generic
error string — the error field does not carry the failure kind. -/
theorem error_kind_counterexample :
    (download_curated_corpus "data/raw" (some 1) none
        (fun _ _ => NetResp.httpError 404) (fun _ => none)).map
        (fun r => (r.download_success, r.error)) =
      [(false, some "Download failed")] ∧
    (download_curated_corpus "data/raw" (some 1) none
        (fun _ _ => NetResp.ok 50) (fun _ => none)).map
        (fun r => (r.download_success, r.error)) =
      [(false, some "Download failed")] ∧
    some "Download failed" ≠ some "not found" ∧
    ¬ (some "Download failed" = some "exhausted retries") :=
  ⟨by decide, by decide, by decide, by decide⟩

/-- Witness for C1 at a concrete input: the thriller genre with a large
cap keeps exactly the filtered catalog prefix. -/
theorem run_filter_take_witness :
    (["thriller_policier"] : List String) ≠ [] ∧ 0 < 100 ∧
    (download_curated_corpus "data/raw" (some 100) (some ["thriller_policier"])
        (fun _ _ => NetResp.netError) (fun _ => none)).map
        (fun r => (r.key, r.book_id)) =
      (CURATED_BOOKS.filter
        (fun kb => (["thriller_policier"] : List String).contains
          (get_genre kb.1))).take 100 :=
  ⟨by decide, by decide,
    (run_filter_take "data/raw" (fun _ _ => NetResp.netError) (fun _ => none)
      ["thriller_policier"] 100 (by decide) (by decide)).1⟩
